import Mathlib

/-!
# single-rcon: broker (single-rcon-server) and agent (single-rcon-client)

A shallow embedding of the request handling of both programs.

* The public-key callbacks of `makeSSHConfig` (broker) and
  `makeSSHServerConfig` (agent).
* The global-request arm of the broker `connectionHandler`
  (tcpip-forward handling) and the payload of the channels it opens.
* The channel-open arm, the session sub-request loop and the exit-wait
  task of the agent `connectionHandler`.

Calls into golang.org/x/crypto/ssh, net, os/exec and creack/pty are not
code of the repository: their results enter the model as parameters
(`KeyLib`, `NetOS`, `ForwardCodec`, `SessionCodec`, `ShellOS`), and every
call the handlers make is recorded, in program order, in the list of
effects each handler returns.
-/

namespace SingleRcon

/-- A Go `map[string]V`, read through the index expression `v, ok := m[k]`. -/
abbrev GoMap (V : Type) := String → Option V

/-- A byte slice. -/
abbrev Bytes := List Nat

/-- Conversion to `uint16`. -/
def uint16 (n : Nat) : Nat := n % 65536

/-- Conversion of a Go `int` to `uint32`. -/
def uint32 (n : Int) : Nat := (n % 4294967296).toNat

/-- The two functions of golang.org/x/crypto/ssh the public-key callbacks
call: `ssh.ParseAuthorizedKey` (only the key and the error of its results are
used) and `PublicKey.Marshal`. -/
structure KeyLib (PublicKey : Type) where
  parseAuthorizedKey : String → Except String PublicKey
  marshal : PublicKey → Bytes

/-- An `ssh.Request`: global request or channel sub-request. -/
structure Request where
  ReqType : String
  WantReply : Bool
  Payload : Bytes

/-! ## Broker: cmd/single-rcon-server -/

namespace Server

/-- Broker `ClientConfig` (config.go). -/
structure ClientConfig where
  Key : String
  Listen : String

instance : Inhabited ClientConfig := ⟨⟨"", ""⟩⟩

/-- Broker `ConfigStruct` (config.go). -/
structure ConfigStruct where
  Listen : String
  Clients : GoMap ClientConfig

/-- The `PublicKeyCallback` closure of `makeSSHConfig` (main.go 51-64);
`user` is `conn.User()`. `Except.ok ()` is the `nil, nil` return. -/
def publicKeyCallback {PublicKey : Type} (lib : KeyLib PublicKey) (conf : ConfigStruct)
    (user : String) (key : PublicKey) : Except String Unit :=
  match conf.Clients user with
  | none => .error "Unknown user"
  | some client =>
    match lib.parseAuthorizedKey client.Key with
    | .error err => .error err
    | .ok confKey =>
      if lib.marshal key ≠ lib.marshal confKey then
        .error "key does not match"
      else
        .ok ()

/-- A `net.TCPAddr`; `IP` is kept in its textual form (`IP.String()`), `Port`
is a Go `int`. -/
structure TCPAddr where
  IP : String
  Port : Int
deriving DecidableEq, Repr

/-- A `net.TCPListener`, known by the local address it is bound to. -/
structure TCPListener where
  Addr : TCPAddr
deriving DecidableEq, Repr

/-- A `net.TCPConn` accepted on a listener. -/
structure TCPConn where
  LocalAddr : TCPAddr
  RemoteAddr : TCPAddr
deriving DecidableEq, Repr

/-- The two calls into package net: `net.ResolveTCPAddr("tcp", s)`, whose
error the handler discards (`none` is the nil address of a failed
resolution), and `net.ListenTCP("tcp", laddr)`. -/
structure NetOS where
  resolveTCPAddr : String → Option TCPAddr
  listenTCP : Option TCPAddr → Except String TCPListener

/-- The anonymous struct `channelForwardMsg` (main.go 133-136). -/
structure ChannelForwardMsg where
  Addr : String
  Rport : Nat
deriving DecidableEq, Repr

/-- The call `ssh.Unmarshal(request.Payload, &channelForwardMsg)`: the struct
as the call leaves it, and the error. -/
structure ForwardCodec where
  unmarshal : Bytes → ChannelForwardMsg × Option String

/-- What the global-request arm does, in program order. -/
inductive Effect where
  /-- A call of `log.Print`. -/
  | log (msg : String)
  /-- The call `request.Reply(ok, payload)`; `some p` is `ssh.Marshal` of the
  struct `p` with `Port = p`, `none` is a nil payload. -/
  | reply (ok : Bool) (port : Option Nat)
  /-- The call `net.ListenTCP("tcp", laddr)` and what it returned. -/
  | listenTCP (laddr : Option TCPAddr) (res : Except String TCPListener)
  /-- The statement `defer listener.Close()`. -/
  | deferClose (listener : TCPListener)
  /-- The accept loop started with `go` on the listener (main.go 156-205). -/
  | goAcceptLoop (listener : TCPListener) (msg : ChannelForwardMsg)
  /-- A nil pointer dereference of `listenAddr`. -/
  | nilDereference

/-- The tail of the request arm from `net.ListenTCP` on (main.go 149-216). -/
def listenAndReply (os : NetOS) (msg : ChannelForwardMsg) (listenAddr : Option TCPAddr) :
    List Effect :=
  match os.listenTCP listenAddr with
  | .error err =>
    [.listenTCP listenAddr (.error err), .log "Failed to listen port: ", .reply false none]
  | .ok listener =>
    [.listenTCP listenAddr (.ok listener), .deferClose listener, .goAcceptLoop listener msg] ++
      (if msg.Rport = 0 then
        match listenAddr with
        | none => [.nilDereference]
        | some a => [.reply true (some (uint32 a.Port))]
      else
        [.reply true none])

/-- The arm `case request, ok := <-requestCh` of `connectionHandler`, for a
received request (main.go 126-216); `user` is `conn.User()`. A Go `int` is 64
bits wide, so `int(channelForwardMsg.Rport)` is the value of `Rport`. -/
def handleRequest (codec : ForwardCodec) (os : NetOS) (conf : ConfigStruct) (user : String)
    (request : Request) : List Effect :=
  if !request.WantReply then
    []
  else if request.ReqType ≠ "tcpip-forward" then
    [.reply false none]
  else
    match codec.unmarshal request.Payload with
    | (_, some _) => [.log "Failed to unmarshal payload: ", .reply false none]
    | (channelForwardMsg, none) =>
      let listenAddr := os.resolveTCPAddr ((conf.Clients user).getD default).Listen
      if channelForwardMsg.Rport ≠ 0 then
        match listenAddr with
        | none => [.nilDereference]
        | some a =>
          if a.Port ≠ (channelForwardMsg.Rport : Int) then
            [.log "Requested forbidden port forward: ", .reply false none]
          else
            listenAndReply os channelForwardMsg listenAddr
      else
        listenAndReply os channelForwardMsg listenAddr

/-- The struct `forwardedTCPPayload` (main.go 167-172). -/
structure ForwardedTCPPayload where
  Addr : String
  Port : Nat
  OriginAddr : String
  OriginPort : Nat
deriving DecidableEq, Repr

/-- The payload of the `forwarded-tcpip` channel the accept loop opens for an
accepted connection (main.go 173-180). -/
def forwardedPayload (channelForwardMsg : ChannelForwardMsg) (tcpConn : TCPConn) :
    ForwardedTCPPayload :=
  { Addr := channelForwardMsg.Addr
    Port := uint32 tcpConn.LocalAddr.Port
    OriginAddr := tcpConn.RemoteAddr.IP
    OriginPort := uint32 tcpConn.RemoteAddr.Port }

end Server

/-! ## Agent: cmd/single-rcon-client -/

namespace Client

/-- Agent `UserConfig` (config.go). -/
structure UserConfig where
  Key : String

/-- Agent `ServerConfig` (config.go). -/
structure ServerConfig where
  Users : GoMap UserConfig

/-- The `PublicKeyCallback` closure of `makeSSHServerConfig` (run.go 69-82);
`user` is `conn.User()`. `Except.ok ()` is the `nil, nil` return. -/
def publicKeyCallback {PublicKey : Type} (lib : KeyLib PublicKey) (conf : ServerConfig)
    (user : String) (key : PublicKey) : Except String Unit :=
  match conf.Users user with
  | none => .error "Unknown user"
  | some u =>
    match lib.parseAuthorizedKey u.Key with
    | .error err => .error err
    | .ok confKey =>
      if lib.marshal key ≠ lib.marshal confKey then
        .error "key does not match"
      else
        .ok ()

/-- The `pty.Winsize` struct of creack/pty; every field is a `uint16`. -/
structure Winsize where
  Rows : Nat
  Cols : Nat
  X : Nat
  Y : Nat
deriving DecidableEq, Repr

/-- The `*os.File` of a pseudo-terminal, known by its descriptor. -/
structure PtyFile where
  fd : Nat
deriving DecidableEq, Repr

/-- The anonymous payload struct of the `pty-req` case (run.go 210-217). -/
structure PtyReqPayload where
  TerminalEnv : String
  CharWidth : Nat
  CharHeight : Nat
  PixelWidth : Nat
  PixelHeight : Nat
  TerminalMode : String
deriving DecidableEq, Repr

/-- The anonymous payload struct of the `window-change` case (run.go 234-239). -/
structure WindowChangePayload where
  CharWidth : Nat
  CharHeight : Nat
  PixelWidth : Nat
  PixelHeight : Nat
deriving DecidableEq, Repr

/-- The two calls `ssh.Unmarshal(req.Payload, &payload)` of the sub-request
loop: the struct as the call leaves it (fields it did not reach keep their
zero value), and the error. -/
structure SessionCodec where
  unmarshalPtyReq : Bytes → PtyReqPayload × Option String
  unmarshalWindowChange : Bytes → WindowChangePayload × Option String

/-- What the operating system answers while one sub-request is handled:
`start` is the error of `cmd.Start()` (`none` is nil), `startWithSize` the
result of `pty.StartWithSize(cmd, ptySize)`. -/
structure ShellOS where
  start : Option String
  startWithSize : Winsize → Except String PtyFile

/-- The variables `programStarted`, `ptyFile` and `ptySize` the sub-request
loop closes over (run.go 147-149). -/
structure SessionState where
  programStarted : Bool
  ptyFile : Option PtyFile
  ptySize : Option Winsize
deriving DecidableEq, Repr

/-- The values the three variables are declared with (run.go 147-149). -/
def SessionState.init : SessionState :=
  { programStarted := false, ptyFile := none, ptySize := none }

/-- What the sub-request loop does, in program order. -/
inductive Event where
  /-- A call of `log.Print`. -/
  | log (msg : String)
  /-- The call `req.Reply(ok, nil)`. -/
  | reply (ok : Bool)
  /-- The call `cmd.Start()` with `cmd.Stdin` and `cmd.Stdout` set to the
  channel and `cmd.Stderr` to `channel.Stderr()`, and the error it returned. -/
  | start (err : Option String)
  /-- The call `pty.StartWithSize(cmd, ptySize)` and what it returned. -/
  | startWithSize (ptySize : Winsize) (res : Except String PtyFile)
  /-- The statement `go io.Copy(channel, ptyFile)`. -/
  | goCopyToChannel (ptyFile : PtyFile)
  /-- The statement `go io.Copy(ptyFile, channel)`. -/
  | goCopyToPty (ptyFile : PtyFile)
  /-- The exit-wait task started with `go` (run.go 190-206). -/
  | goWait
  /-- The call `pty.Setsize(ptyFile, ptySize)`. -/
  | setsize (ptyFile : PtyFile) (ptySize : Winsize)

/-- The statement `if req.WantReply then req.Reply(ok, nil)`. -/
def replyIfWanted (req : Request) (ok : Bool) : List Event :=
  if req.WantReply then [.reply ok] else []

/-- The body of the loop `for req := range requestCh` for one sub-request
(run.go 152-254): the variables after the iteration and what it did. -/
def handleRequest (codec : SessionCodec) (os : ShellOS) (st : SessionState) (req : Request) :
    SessionState × List Event :=
  if req.ReqType = "shell" then
    if st.programStarted then
      (st, [.log "Duplicate program run: "] ++ replyIfWanted req false)
    else
      let st := { st with programStarted := true }
      match st.ptySize with
      | none =>
        match os.start with
        | some err =>
          (st, [.start (some err), .log "Failed to start shell: "] ++ replyIfWanted req false)
        | none =>
          (st, [.start none, .goWait])
      | some ptySize =>
        match os.startWithSize ptySize with
        | .error err =>
          ({ st with ptyFile := none },
            [.startWithSize ptySize (.error err), .log "Failed to start shell: "] ++
              replyIfWanted req false)
        | .ok ptyFile =>
          ({ st with ptyFile := some ptyFile },
            [.startWithSize ptySize (.ok ptyFile), .goCopyToChannel ptyFile,
              .goCopyToPty ptyFile] ++ replyIfWanted req true ++ [.goWait])
  else if req.ReqType = "exec" then
    (st, [.log "unsupported exec"])
  else if req.ReqType = "pty-req" then
    let (payload, err) := codec.unmarshalPtyReq req.Payload
    let failed : List Event :=
      match err with
      | some _ => [.log "Failed to parse pty-req: "] ++ replyIfWanted req false
      | none => []
    let ptySize : Winsize :=
      { Rows := uint16 payload.CharHeight
        Cols := uint16 payload.CharWidth
        X := uint16 payload.PixelWidth
        Y := uint16 payload.PixelHeight }
    ({ st with ptySize := some ptySize }, failed ++ replyIfWanted req true)
  else if req.ReqType = "window-change" then
    let (payload, err) := codec.unmarshalWindowChange req.Payload
    let failed : List Event :=
      match err with
      | some _ => [.log "Failed to parse window-change: "]
      | none => []
    let ptySize : Winsize :=
      { Rows := uint16 payload.CharHeight
        Cols := uint16 payload.CharWidth
        X := uint16 payload.PixelWidth
        Y := uint16 payload.PixelHeight }
    ({ st with ptySize := some ptySize },
      failed ++ (match st.ptyFile with
        | some ptyFile => [.setsize ptyFile ptySize]
        | none => []))
  else
    (st, [.log ("Unknown session request: " ++ req.ReqType)])

/-- The loop `for req := range requestCh` over the sub-requests received on
the channel, each with the answers of the operating system at that time:
the variables after the last one, and the events of each iteration in order. -/
def runRequests (codec : SessionCodec) :
    SessionState → List (ShellOS × Request) → SessionState × List Event
  | st, [] => (st, [])
  | st, (os, req) :: rest =>
    let r := handleRequest codec os st req
    let r2 := runRequests codec r.1 rest
    (r2.1, r.2 ++ r2.2)

/-- A call that starts the shell process, with or without a pseudo-terminal,
whatever it returned. -/
def Event.isStartCall : Event → Bool
  | .start _ => true
  | .startWithSize _ _ => true
  | _ => false

/-- A call that started a shell process (it returned no error). -/
def Event.isSpawn : Event → Bool
  | .start none => true
  | .startWithSize _ (.ok _) => true
  | _ => false

/-- A call of `cmd.Start()` with the standard streams wired to the channel. -/
def Event.isDirectStart : Event → Bool
  | .start _ => true
  | _ => false

/-- A call of `pty.StartWithSize`. -/
def Event.isPtyStart : Event → Bool
  | .startWithSize _ _ => true
  | _ => false

/-- The error `cmd.Wait()` returned, when it is not nil: an `*exec.ExitError`
with the value of its `ExitCode()`, or any other error. -/
inductive WaitError where
  | exitError (exitCode : Int)
  | other (msg : String)
deriving DecidableEq, Repr

/-- What the exit-wait task does on the channel, in program order. -/
inductive ChannelAction where
  /-- The call `channel.SendRequest(name, wantReply, ssh.Marshal(ExitStatus))`
  with the `Code` of the marshalled struct. -/
  | sendRequest (name : String) (wantReply : Bool) (code : Nat)
  /-- The call `channel.Close()`. -/
  | close
deriving DecidableEq, Repr

/-- The exit-wait task after `cmd.Wait()` returned `err` (run.go 191-205);
`none` is a nil error. -/
def exitWait (err : Option WaitError) : List ChannelAction :=
  (match err with
    | none => [.sendRequest "exit-status" false 0]
    | some (.exitError exitCode) => [.sendRequest "exit-status" false (uint32 exitCode)]
    | some (.other _) => []) ++
  [.close]

/-- An `ssh.Channel` returned by `newChannel.Accept()`, known by its id. -/
structure Channel where
  id : Nat
deriving DecidableEq, Repr

/-- What the channel-open arm does with a new channel, in program order. -/
inductive OpenEffect where
  /-- A call of `log.Print`. -/
  | log (msg : String)
  /-- The call `newChannel.Reject(ssh.Prohibited, message)`. -/
  | reject (message : String)
  /-- The call `newChannel.Accept()` and the channel it returned (`none` is
  the nil channel that comes with an error). -/
  | accept (res : Option Channel)
  /-- The statement `defer channel.Close()` on a nil channel: the method value
  of a nil interface is evaluated, a run-time panic. -/
  | nilDereference
  /-- The statement `defer channel.Close()`. -/
  | deferClose (channel : Channel)
  /-- The declaration of the session variables and the sub-request loop
  started with `go` on them (run.go 147-257). -/
  | goRequestLoop (channel : Channel) (st : SessionState)
deriving DecidableEq, Repr

/-- The arm `case newChannel, ok := <-channelCh` of `connectionHandler`, for a
received channel-open (run.go 138-257); `accept` is what `newChannel.Accept()`
returns when called. -/
def handleNewChannel (channelType : String) (accept : Option Channel) : List OpenEffect :=
  (if channelType ≠ "session" then
    [.log ("Invalid channel type: " ++ channelType),
      .reject "this server allow only session channel"]
  else
    []) ++
  [.accept accept] ++
  (match accept with
    | none => [.log "Failed to accept channel: ", .nilDereference]
    | some channel => [.deferClose channel, .goRequestLoop channel SessionState.init])

/-- What `cmd.Wait()` of os/exec returns for a process that exited with code
`N`: a nil error for code 0, an `*exec.ExitError` whose `ExitCode()` is `N`
for any other code. -/
def waitResult (N : Nat) : Option WaitError :=
  if N = 0 then none else some (.exitError N)

/-- No `pty-req` comes before the first `shell` request of the sequence. -/
def noPtyReqBeforeShell : List (ShellOS × Request) → Bool
  | [] => true
  | (_, req) :: rest =>
    if req.ReqType = "shell" then true
    else if req.ReqType = "pty-req" then false
    else noPtyReqBeforeShell rest

/-- Neither a `pty-req` nor a `window-change` comes before the first `shell`
request of the sequence. -/
def noSizeBeforeShell : List (ShellOS × Request) → Bool
  | [] => true
  | (_, req) :: rest =>
    if req.ReqType = "shell" then true
    else if req.ReqType = "pty-req" then false
    else if req.ReqType = "window-change" then false
    else noSizeBeforeShell rest

end Client

/-! ## Sample inputs

Concrete libraries, configurations and requests at which the theorems below
are evaluated. The sample codecs read the wire format of RFC 4251: a `uint32`
is four bytes, most significant first, a `string` is a `uint32` length and
that many bytes, and bytes left over after the last field are an error. -/

namespace Sample

/-- Reads a `uint32`. -/
def readUint32 : Bytes → Option (Nat × Bytes)
  | a :: b :: c :: d :: rest => some (((a * 256 + b) * 256 + c) * 256 + d, rest)
  | _ => none

/-- Reads a `string`. -/
def readString (bs : Bytes) : Option (String × Bytes) :=
  match readUint32 bs with
  | none => none
  | some (n, rest) =>
    if rest.length < n then none
    else some (String.mk ((rest.take n).map Char.ofNat), rest.drop n)

/-- Sample key library: a key is the text of its authorized-key line, an empty
line does not parse, and a key marshals to the character codes of its text. -/
def keyLib : KeyLib String :=
  { parseAuthorizedKey := fun text =>
      if text = "" then .error "ssh: no key found" else .ok text
    marshal := fun key => key.toList.map Char.toNat }

/-- Sample broker configuration: one agent, pinned to port 2222. -/
def brokerConf : Server.ConfigStruct :=
  { Listen := ":2200"
    Clients := fun name =>
      if name = "agent" then some { Key := "ssh-ed25519 AAAA", Listen := "0.0.0.0:2222" }
      else none }

/-- Sample broker configuration: one agent, pinned to port 0. -/
def brokerConfAnyPort : Server.ConfigStruct :=
  { Listen := ":2200"
    Clients := fun name =>
      if name = "agent" then some { Key := "ssh-ed25519 AAAA", Listen := "0.0.0.0:0" }
      else none }

/-- Sample agent configuration: one end user. -/
def agentConf : Client.ServerConfig :=
  { Users := fun name => if name = "operator" then some { Key := "ssh-ed25519 BBBB" } else none }

/-- Sample resolver: knows the two addresses of the sample configurations. -/
def resolve (s : String) : Option Server.TCPAddr :=
  if s = "0.0.0.0:2222" then some { IP := "0.0.0.0", Port := 2222 }
  else if s = "0.0.0.0:0" then some { IP := "0.0.0.0", Port := 0 }
  else none

/-- Sample operating system on which every port is free: a bind of a nonzero
port gets that port, a bind of port 0 gets port 40000. -/
def netFree : Server.NetOS :=
  { resolveTCPAddr := resolve
    listenTCP := fun laddr =>
      match laddr with
      | none => .ok { Addr := { IP := "::", Port := 40000 } }
      | some a => .ok { Addr := { IP := a.IP, Port := if a.Port = 0 then 40000 else a.Port } } }

/-- Sample operating system on which the bind fails (the port is in use). -/
def netBusy : Server.NetOS :=
  { resolveTCPAddr := resolve
    listenTCP := fun _ => .error "bind: address already in use" }

/-- Sample codec of the tcpip-forward payload. -/
def forwardCodec : Server.ForwardCodec :=
  { unmarshal := fun bs =>
      match readString bs with
      | none => ({ Addr := "", Rport := 0 }, some "ssh: short read")
      | some (addr, rest) =>
        match readUint32 rest with
        | none => ({ Addr := addr, Rport := 0 }, some "ssh: short read")
        | some (port, []) => ({ Addr := addr, Rport := port }, none)
        | some (port, _ :: _) => ({ Addr := addr, Rport := port }, some "ssh: unmarshal error") }

/-- The bytes of the address `0.0.0.0` as a wire string. -/
def anyAddr : Bytes := [0, 0, 0, 7, 48, 46, 48, 46, 48, 46, 48]

/-- A tcpip-forward request for port 2222. -/
def forward2222 : Request :=
  { ReqType := "tcpip-forward", WantReply := true, Payload := anyAddr ++ [0, 0, 8, 174] }

/-- A tcpip-forward request for port 2223. -/
def forward2223 : Request :=
  { ReqType := "tcpip-forward", WantReply := true, Payload := anyAddr ++ [0, 0, 8, 175] }

/-- A tcpip-forward request for port 0. -/
def forward0 : Request :=
  { ReqType := "tcpip-forward", WantReply := true, Payload := anyAddr ++ [0, 0, 0, 0] }

/-- Sample decoder of the `pty-req` payload; a field that was not reached
keeps its zero value. -/
def unmarshalPtyReq (bs : Bytes) : Client.PtyReqPayload × Option String :=
  match readString bs with
  | none => (⟨"", 0, 0, 0, 0, ""⟩, some "ssh: short read")
  | some (env, r1) =>
    match readUint32 r1 with
    | none => (⟨env, 0, 0, 0, 0, ""⟩, some "ssh: short read")
    | some (w, r2) =>
      match readUint32 r2 with
      | none => (⟨env, w, 0, 0, 0, ""⟩, some "ssh: short read")
      | some (h, r3) =>
        match readUint32 r3 with
        | none => (⟨env, w, h, 0, 0, ""⟩, some "ssh: short read")
        | some (x, r4) =>
          match readUint32 r4 with
          | none => (⟨env, w, h, x, 0, ""⟩, some "ssh: short read")
          | some (y, r5) =>
            match readString r5 with
            | none => (⟨env, w, h, x, y, ""⟩, some "ssh: short read")
            | some (mode, []) => (⟨env, w, h, x, y, mode⟩, none)
            | some (mode, _ :: _) => (⟨env, w, h, x, y, mode⟩, some "ssh: unmarshal error")

/-- Sample decoder of the `window-change` payload; a field that was not
reached keeps its zero value. -/
def unmarshalWindowChange (bs : Bytes) : Client.WindowChangePayload × Option String :=
  match readUint32 bs with
  | none => (⟨0, 0, 0, 0⟩, some "ssh: short read")
  | some (w, r2) =>
    match readUint32 r2 with
    | none => (⟨w, 0, 0, 0⟩, some "ssh: short read")
    | some (h, r3) =>
      match readUint32 r3 with
      | none => (⟨w, h, 0, 0⟩, some "ssh: short read")
      | some (x, r4) =>
        match readUint32 r4 with
        | none => (⟨w, h, x, 0⟩, some "ssh: short read")
        | some (y, []) => (⟨w, h, x, y⟩, none)
        | some (y, _ :: _) => (⟨w, h, x, y⟩, some "ssh: unmarshal error")

/-- Sample codec of the session sub-requests. -/
def sessionCodec : Client.SessionCodec :=
  { unmarshalPtyReq := unmarshalPtyReq
    unmarshalWindowChange := unmarshalWindowChange }

/-- Sample operating system on which the shell starts, on pty descriptor 7
when a pseudo-terminal is asked for. -/
def shellOK : Client.ShellOS :=
  { start := none
    startWithSize := fun _ => .ok { fd := 7 } }

/-- A `shell` request that wants a reply. -/
def shellReq : Request :=
  { ReqType := "shell", WantReply := true, Payload := [] }

/-- An `exec` request that wants a reply. -/
def execReq : Request :=
  { ReqType := "exec", WantReply := true, Payload := [] }

/-- The bytes of the terminal name `xterm` as a wire string. -/
def xterm : Bytes := [0, 0, 0, 5, 120, 116, 101, 114, 109]

/-- A `pty-req` for 80 columns, 24 rows, 640 by 480 pixels, no modes. -/
def ptyReq80x24 : Request :=
  { ReqType := "pty-req", WantReply := true,
    Payload := xterm ++ [0, 0, 0, 80, 0, 0, 0, 24, 0, 0, 2, 128, 0, 0, 1, 224, 0, 0, 0, 0] }

/-- A `pty-req` for 65536 columns, 24 rows, 0 by 0 pixels, no modes. -/
def ptyReqWide : Request :=
  { ReqType := "pty-req", WantReply := true,
    Payload := xterm ++ [0, 1, 0, 0, 0, 0, 0, 24, 0, 0, 0, 0, 0, 0, 0, 0, 0, 0, 0, 0] }

/-- A `window-change` to 132 columns, 43 rows, 0 by 0 pixels. -/
def windowChange132x43 : Request :=
  { ReqType := "window-change", WantReply := false,
    Payload := [0, 0, 0, 132, 0, 0, 0, 43, 0, 0, 0, 0, 0, 0, 0, 0] }

/-- A `pty-req` that wants a reply and whose payload is empty, so that it does
not parse. -/
def ptyReqEmpty : Request :=
  { ReqType := "pty-req", WantReply := true, Payload := [] }

/-- A `window-change` whose payload is empty, so that it does not parse. -/
def windowChangeEmpty : Request :=
  { ReqType := "window-change", WantReply := false, Payload := [] }

/-- The session variables while a shell runs on pty descriptor 7 with a size
of 80 columns, 24 rows, 640 by 480 pixels. -/
def liveSession : Client.SessionState :=
  { programStarted := true
    ptyFile := some { fd := 7 }
    ptySize := some { Rows := 24, Cols := 80, X := 640, Y := 480 } }

end Sample

/-! ## Theorems -/

/-- Claim C1: the public-key callback of the broker and that of the agent
accept exactly when the claimed name is in the table, the key text recorded
for it parses, and the presented key marshals to the same bytes as the
recorded key; a name that is not in the table is rejected with the error
"Unknown user", whatever the key. -/
theorem publicKeyCallback_accepts_iff {PublicKey : Type} (lib : KeyLib PublicKey)
    (sconf : Server.ConfigStruct) (cconf : Client.ServerConfig) (user : String)
    (key : PublicKey) :
    (Server.publicKeyCallback lib sconf user key = .ok () ↔
      ∃ client confKey, sconf.Clients user = some client ∧
        lib.parseAuthorizedKey client.Key = .ok confKey ∧
        lib.marshal key = lib.marshal confKey) ∧
    (sconf.Clients user = none →
      Server.publicKeyCallback lib sconf user key = .error "Unknown user") ∧
    (Client.publicKeyCallback lib cconf user key = .ok () ↔
      ∃ u confKey, cconf.Users user = some u ∧
        lib.parseAuthorizedKey u.Key = .ok confKey ∧
        lib.marshal key = lib.marshal confKey) ∧
    (cconf.Users user = none →
      Client.publicKeyCallback lib cconf user key = .error "Unknown user") := by
  refine ⟨?_, ?_, ?_, ?_⟩
  · unfold Server.publicKeyCallback
    cases hc : sconf.Clients user with
    | none => simp
    | some client =>
      cases hp : lib.parseAuthorizedKey client.Key with
      | error err => simp [hp]
      | ok confKey =>
        by_cases hm : lib.marshal key = lib.marshal confKey <;> simp [hp, hm]
  · intro hc
    simp [Server.publicKeyCallback, hc]
  · unfold Client.publicKeyCallback
    cases hc : cconf.Users user with
    | none => simp
    | some u =>
      cases hp : lib.parseAuthorizedKey u.Key with
      | error err => simp [hp]
      | ok confKey =>
        by_cases hm : lib.marshal key = lib.marshal confKey <;> simp [hp, hm]
  · intro hc
    simp [Client.publicKeyCallback, hc]

/-- Claim C1 at sample inputs: an unknown name is rejected as unknown by both
callbacks, and the registered names are accepted with their recorded key. -/
theorem publicKeyCallback_accepts_iff_witness :
    Server.publicKeyCallback Sample.keyLib Sample.brokerConf "mallory" "ssh-ed25519 AAAA"
      = .error "Unknown user" ∧
    Client.publicKeyCallback Sample.keyLib Sample.agentConf "mallory" "ssh-ed25519 BBBB"
      = .error "Unknown user" ∧
    Server.publicKeyCallback Sample.keyLib Sample.brokerConf "agent" "ssh-ed25519 AAAA"
      = .ok () ∧
    Client.publicKeyCallback Sample.keyLib Sample.agentConf "operator" "ssh-ed25519 BBBB"
      = .ok () :=
  have h := publicKeyCallback_accepts_iff Sample.keyLib Sample.brokerConf Sample.agentConf
    "mallory" "ssh-ed25519 AAAA"
  have h2 := publicKeyCallback_accepts_iff Sample.keyLib Sample.brokerConf Sample.agentConf
    "mallory" "ssh-ed25519 BBBB"
  have ha := publicKeyCallback_accepts_iff Sample.keyLib Sample.brokerConf Sample.agentConf
    "agent" "ssh-ed25519 AAAA"
  have ho := publicKeyCallback_accepts_iff Sample.keyLib Sample.brokerConf Sample.agentConf
    "operator" "ssh-ed25519 BBBB"
  ⟨h.2.1 rfl, h2.2.2.2 rfl,
    ha.1.2 ⟨_, "ssh-ed25519 AAAA", rfl, rfl, rfl⟩,
    ho.2.2.1.2 ⟨_, "ssh-ed25519 BBBB", rfl, rfl, rfl⟩⟩

/-- Claim C2 as stated fails where the bind fails: the agent is pinned to port
2222 and asks for port 2222 with a reply wanted, the port is in use, and the
handler replies failure and keeps no listener. -/
theorem forward_pinned_port_bind_fails :
    Sample.netBusy.resolveTCPAddr ((Sample.brokerConf.Clients "agent").getD default).Listen
      = some { IP := "0.0.0.0", Port := 2222 } ∧
    Sample.forwardCodec.unmarshal Sample.forward2222.Payload
      = ({ Addr := "0.0.0.0", Rport := 2222 }, none) ∧
    Sample.forward2222.WantReply = true ∧
    Server.handleRequest Sample.forwardCodec Sample.netBusy Sample.brokerConf "agent"
        Sample.forward2222
      = [.listenTCP (some { IP := "0.0.0.0", Port := 2222 })
            (.error "bind: address already in use"),
          .log "Failed to listen port: ", .reply false none] :=
  ⟨rfl, rfl, rfl, rfl⟩

/-- Claim C2, amended: for a reply-wanting tcpip-forward request with requested
port R from an agent whose pinned address resolves to port P, if R = P the
handler calls the bind on exactly the pinned address; when the bind succeeds it
keeps that listener, starts the accept loop on it and replies success, and when
the bind fails it replies failure and keeps no listener; if R is nonzero and
differs from P it replies failure, calls no bind and starts no accept loop. -/
theorem forward_port_policy (codec : Server.ForwardCodec) (os : Server.NetOS)
    (conf : Server.ConfigStruct) (user : String) (request : Request)
    (msg : Server.ChannelForwardMsg) (a : Server.TCPAddr)
    (hw : request.WantReply = true) (ht : request.ReqType = "tcpip-forward")
    (hm : codec.unmarshal request.Payload = (msg, none))
    (ha : os.resolveTCPAddr ((conf.Clients user).getD default).Listen = some a) :
    ((msg.Rport : Int) = a.Port →
      (∀ listener, os.listenTCP (some a) = .ok listener →
        Server.handleRequest codec os conf user request
          = [.listenTCP (some a) (.ok listener), .deferClose listener,
              .goAcceptLoop listener msg,
              .reply true (if msg.Rport = 0 then some (uint32 a.Port) else none)]) ∧
      (∀ err, os.listenTCP (some a) = .error err →
        Server.handleRequest codec os conf user request
          = [.listenTCP (some a) (.error err), .log "Failed to listen port: ",
              .reply false none])) ∧
    (msg.Rport ≠ 0 → (msg.Rport : Int) ≠ a.Port →
      Server.handleRequest codec os conf user request
        = [.log "Requested forbidden port forward: ", .reply false none]) := by
  refine ⟨fun hp => ⟨fun listener hl => ?_, fun err hl => ?_⟩, fun h0 hp => ?_⟩
  · by_cases h0 : msg.Rport = 0 <;>
      simp [Server.handleRequest, Server.listenAndReply, hw, ht, hm, ha, hl, h0, hp.symm]
  · by_cases h0 : msg.Rport = 0 <;>
      simp [Server.handleRequest, Server.listenAndReply, hw, ht, hm, ha, hl, h0, hp.symm]
  · have hp2 : ¬ a.Port = (msg.Rport : Int) := fun h => hp h.symm
    simp [Server.handleRequest, hw, ht, hm, ha, h0, hp2]

/-- Claim C2, amended, at sample inputs: the agent pinned to port 2222 gets a
listener and a success reply for port 2222 when the port is free, a failure
reply when it is in use, and a failure reply without any bind for port 2223. -/
theorem forward_port_policy_witness :
    Server.handleRequest Sample.forwardCodec Sample.netFree Sample.brokerConf "agent"
        Sample.forward2222
      = [.listenTCP (some { IP := "0.0.0.0", Port := 2222 })
            (.ok { Addr := { IP := "0.0.0.0", Port := 2222 } }),
          .deferClose { Addr := { IP := "0.0.0.0", Port := 2222 } },
          .goAcceptLoop { Addr := { IP := "0.0.0.0", Port := 2222 } }
            { Addr := "0.0.0.0", Rport := 2222 },
          .reply true none] ∧
    Server.handleRequest Sample.forwardCodec Sample.netFree Sample.brokerConf "agent"
        Sample.forward2223
      = [.log "Requested forbidden port forward: ", .reply false none] :=
  ⟨((forward_port_policy Sample.forwardCodec Sample.netFree Sample.brokerConf "agent"
      Sample.forward2222 { Addr := "0.0.0.0", Rport := 2222 }
      { IP := "0.0.0.0", Port := 2222 } rfl rfl rfl rfl).1 rfl).1 _ rfl,
    (forward_port_policy Sample.forwardCodec Sample.netFree Sample.brokerConf "agent"
      Sample.forward2223 { Addr := "0.0.0.0", Rport := 2223 }
      { IP := "0.0.0.0", Port := 2222 } rfl rfl rfl rfl).2 (by decide) (by decide)⟩

/-- Claim C3 fails for an agent pinned to port 0: the request asks for port 0,
the bind succeeds on the port the operating system assigns (40000), and the
success reply carries port 0, while the forwarded-tcpip channel opened for a
connection accepted on that listener carries port 40000. -/
theorem forward_any_port_reply_is_pinned_port :
    Server.handleRequest Sample.forwardCodec Sample.netFree Sample.brokerConfAnyPort "agent"
        Sample.forward0
      = [.listenTCP (some { IP := "0.0.0.0", Port := 0 })
            (.ok { Addr := { IP := "0.0.0.0", Port := 40000 } }),
          .deferClose { Addr := { IP := "0.0.0.0", Port := 40000 } },
          .goAcceptLoop { Addr := { IP := "0.0.0.0", Port := 40000 } }
            { Addr := "0.0.0.0", Rport := 0 },
          .reply true (some 0)] ∧
    (Server.forwardedPayload { Addr := "0.0.0.0", Rport := 0 }
        { LocalAddr := { IP := "0.0.0.0", Port := 40000 },
          RemoteAddr := { IP := "203.0.113.5", Port := 51000 } }).Port = 40000 :=
  ⟨rfl, rfl⟩

/-! ### The session sub-request loop -/

namespace Client

theorem countP_replyIfWanted_isStartCall (req : Request) (ok : Bool) :
    (replyIfWanted req ok).countP Event.isStartCall = 0 := by
  unfold replyIfWanted
  split <;> simp [Event.isStartCall]

/-- A `shell` request on a channel whose shell was already started. -/
theorem handleRequest_shell_started (codec : SessionCodec) (os : ShellOS) (st : SessionState)
    (req : Request) (ht : req.ReqType = "shell") (hs : st.programStarted = true) :
    handleRequest codec os st req
      = (st, [.log "Duplicate program run: "] ++ replyIfWanted req false) := by
  simp [handleRequest, ht, hs]

/-- A request that is not `shell` keeps `programStarted` and starts nothing. -/
theorem handleRequest_not_shell (codec : SessionCodec) (os : ShellOS) (st : SessionState)
    (req : Request) (ht : req.ReqType ≠ "shell") :
    (handleRequest codec os st req).1.programStarted = st.programStarted ∧
    (handleRequest codec os st req).2.countP Event.isStartCall = 0 := by
  unfold handleRequest
  rw [if_neg ht]
  split_ifs
  · simp [Event.isStartCall]
  · rcases hp : codec.unmarshalPtyReq req.Payload with ⟨payload, err⟩
    cases err <;> simp [countP_replyIfWanted_isStartCall, Event.isStartCall]
  · rcases hp : codec.unmarshalWindowChange req.Payload with ⟨payload, err⟩
    cases err <;> cases st.ptyFile <;> simp [Event.isStartCall]
  · simp [Event.isStartCall]

/-- The first `shell` request sets `programStarted` and makes one start call. -/
theorem handleRequest_shell_fresh (codec : SessionCodec) (os : ShellOS) (st : SessionState)
    (req : Request) (ht : req.ReqType = "shell") (hs : st.programStarted = false) :
    (handleRequest codec os st req).1.programStarted = true ∧
    (handleRequest codec os st req).2.countP Event.isStartCall = 1 := by
  unfold handleRequest
  rw [if_pos ht]
  simp only [hs]
  cases hsz : st.ptySize with
  | none =>
    cases hst : os.start <;>
      simp [hst, countP_replyIfWanted_isStartCall, Event.isStartCall]
  | some ptySize =>
    cases hst : os.startWithSize ptySize <;>
      simp [hst, countP_replyIfWanted_isStartCall, Event.isStartCall]

/-- Once `programStarted` is set it stays set, and no start call is made. -/
theorem runRequests_started (codec : SessionCodec) (inputs : List (ShellOS × Request)) :
    ∀ st : SessionState, st.programStarted = true →
      (runRequests codec st inputs).1.programStarted = true ∧
      (runRequests codec st inputs).2.countP Event.isStartCall = 0 := by
  induction inputs with
  | nil => intro st hs; simp [runRequests, hs]
  | cons x rest ih =>
    intro st hs
    obtain ⟨os, req⟩ := x
    by_cases ht : req.ReqType = "shell"
    · have h := handleRequest_shell_started codec os st req ht hs
      have h2 := ih st hs
      simp only [runRequests, h, List.countP_append]
      refine ⟨h2.1, ?_⟩
      rw [h2.2]
      simp [countP_replyIfWanted_isStartCall, Event.isStartCall]
    · have h := handleRequest_not_shell codec os st req ht
      have h2 := ih (handleRequest codec os st req).1 (h.1.trans hs)
      simp only [runRequests, List.countP_append]
      exact ⟨h2.1, by rw [h.2, h2.2]⟩

/-- A run makes at most one start call; if it makes one, `programStarted` is
set at its end. -/
theorem runRequests_startCalls (codec : SessionCodec) (inputs : List (ShellOS × Request)) :
    ∀ st : SessionState,
      (runRequests codec st inputs).2.countP Event.isStartCall ≤ 1 ∧
      (0 < (runRequests codec st inputs).2.countP Event.isStartCall →
        (runRequests codec st inputs).1.programStarted = true) := by
  induction inputs with
  | nil => intro st; simp [runRequests]
  | cons x rest ih =>
    intro st
    obtain ⟨os, req⟩ := x
    cases hs : st.programStarted with
    | true =>
      have h := runRequests_started codec ((os, req) :: rest) st hs
      exact ⟨by rw [h.2]; exact Nat.zero_le 1, fun _ => h.1⟩
    | false =>
      by_cases ht : req.ReqType = "shell"
      · have h := handleRequest_shell_fresh codec os st req ht hs
        have h2 := runRequests_started codec rest (handleRequest codec os st req).1 h.1
        simp only [runRequests, List.countP_append]
        exact ⟨by rw [h.2, h2.2], fun _ => h2.1⟩
      · have h := handleRequest_not_shell codec os st req ht
        have h2 := ih (handleRequest codec os st req).1
        simp only [runRequests, List.countP_append]
        rw [h.2]
        simpa using h2

theorem isStartCall_of_isSpawn (e : Event) (h : e.isSpawn = true) : e.isStartCall = true := by
  cases e with
  | start err => rfl
  | startWithSize ptySize res => rfl
  | log msg => simp [Event.isSpawn] at h
  | reply ok => simp [Event.isSpawn] at h
  | goCopyToChannel f => simp [Event.isSpawn] at h
  | goCopyToPty f => simp [Event.isSpawn] at h
  | goWait => simp [Event.isSpawn] at h
  | setsize f ws => simp [Event.isSpawn] at h

theorem isStartCall_of_isPtyStart (e : Event) (h : e.isPtyStart = true) :
    e.isStartCall = true := by
  cases e <;> simp_all [Event.isPtyStart, Event.isStartCall]

theorem isStartCall_of_isDirectStart (e : Event) (h : e.isDirectStart = true) :
    e.isStartCall = true := by
  cases e <;> simp_all [Event.isDirectStart, Event.isStartCall]

/-- No start call means no start call of either kind. -/
theorem countP_kinds_of_startCalls_zero (l : List Event)
    (h : l.countP Event.isStartCall = 0) :
    l.countP Event.isPtyStart = 0 ∧ l.countP Event.isDirectStart = 0 := by
  have h1 : l.countP Event.isPtyStart ≤ l.countP Event.isStartCall :=
    List.countP_mono_left fun e _ he => isStartCall_of_isPtyStart e he
  have h2 : l.countP Event.isDirectStart ≤ l.countP Event.isStartCall :=
    List.countP_mono_left fun e _ he => isStartCall_of_isDirectStart e he
  omega

theorem countP_replyIfWanted_isPtyStart (req : Request) (ok : Bool) :
    (replyIfWanted req ok).countP Event.isPtyStart = 0 := by
  unfold replyIfWanted
  split <;> simp [Event.isPtyStart]

theorem countP_replyIfWanted_isDirectStart (req : Request) (ok : Bool) :
    (replyIfWanted req ok).countP Event.isDirectStart = 0 := by
  unfold replyIfWanted
  split <;> simp [Event.isDirectStart]

/-- The first `shell` request, with no pending pty size: one call of
`cmd.Start()`, none of `pty.StartWithSize`. -/
theorem handleRequest_shell_fresh_direct (codec : SessionCodec) (os : ShellOS)
    (st : SessionState) (req : Request) (ht : req.ReqType = "shell")
    (hs : st.programStarted = false) (hz : st.ptySize = none) :
    (handleRequest codec os st req).2.countP Event.isPtyStart = 0 ∧
    (handleRequest codec os st req).2.countP Event.isDirectStart = 1 := by
  unfold handleRequest
  rw [if_pos ht]
  simp only [hs, hz]
  cases hst : os.start <;>
    simp [hst, countP_replyIfWanted_isPtyStart, countP_replyIfWanted_isDirectStart,
      Event.isPtyStart, Event.isDirectStart]

/-- A request that is none of `shell`, `pty-req`, `window-change` leaves the
session variables as they were. -/
theorem handleRequest_other_state (codec : SessionCodec) (os : ShellOS) (st : SessionState)
    (req : Request) (h1 : req.ReqType ≠ "shell") (h2 : req.ReqType ≠ "pty-req")
    (h3 : req.ReqType ≠ "window-change") :
    (handleRequest codec os st req).1 = st := by
  unfold handleRequest
  rw [if_neg h1]
  split_ifs <;> rfl

/-- With no pending pty size and no size request before the first `shell`, a
run makes no call of `pty.StartWithSize`, and exactly one call of `cmd.Start()`
when it holds a `shell` request. -/
theorem runRequests_direct (codec : SessionCodec) (inputs : List (ShellOS × Request)) :
    ∀ st : SessionState, st.programStarted = false → st.ptySize = none →
      noSizeBeforeShell inputs = true →
      (runRequests codec st inputs).2.countP Event.isPtyStart = 0 ∧
      ((∃ i ∈ inputs, i.2.ReqType = "shell") →
        (runRequests codec st inputs).2.countP Event.isDirectStart = 1) := by
  induction inputs with
  | nil => intro st _ _ _; simp [runRequests]
  | cons x rest ih =>
    intro st hs hz hno
    obtain ⟨os, req⟩ := x
    by_cases ht : req.ReqType = "shell"
    · have hf := handleRequest_shell_fresh codec os st req ht hs
      have hd := handleRequest_shell_fresh_direct codec os st req ht hs hz
      have hr := runRequests_started codec rest (handleRequest codec os st req).1 hf.1
      have hk := countP_kinds_of_startCalls_zero _ hr.2
      simp only [runRequests, List.countP_append]
      exact ⟨by rw [hd.1, hk.1], fun _ => by rw [hd.2, hk.2]⟩
    · have h2 : req.ReqType ≠ "pty-req" := by
        intro h; simp [noSizeBeforeShell, ht, h] at hno
      have h3 : req.ReqType ≠ "window-change" := by
        intro h; simp [noSizeBeforeShell, ht, h] at hno
      have hrest : noSizeBeforeShell rest = true := by
        simpa [noSizeBeforeShell, ht, h2, h3] using hno
      have hsame := handleRequest_other_state codec os st req ht h2 h3
      have hk := countP_kinds_of_startCalls_zero _ (handleRequest_not_shell codec os st req ht).2
      have h := ih (handleRequest codec os st req).1 (by rw [hsame]; exact hs)
        (by rw [hsame]; exact hz) hrest
      simp only [runRequests, List.countP_append]
      refine ⟨by rw [hk.1, h.1], fun hex => ?_⟩
      rw [hk.2, Nat.zero_add]
      apply h.2
      obtain ⟨i, hi, hish⟩ := hex
      rcases List.mem_cons.mp hi with rfl | hi
      · exact absurd hish ht
      · exact ⟨i, hi, hish⟩

end Client

/-- Claim C4: over any sequence of sub-requests on one session channel at most
one shell process is spawned (at most one start call is made at all), and a
`shell` request that arrives after a process was spawned leaves the session
variables (started flag, pty handle, pending pty size) as they were, makes no
start call, and is answered with a failure reply when it wants a reply. -/
theorem shell_spawned_at_most_once (codec : Client.SessionCodec)
    (inputs : List (Client.ShellOS × Request)) :
    (Client.runRequests codec Client.SessionState.init inputs).2.countP
        Client.Event.isSpawn ≤ 1 ∧
    (Client.runRequests codec Client.SessionState.init inputs).2.countP
        Client.Event.isStartCall ≤ 1 ∧
    ∀ pre os req post, inputs = pre ++ (os, req) :: post → req.ReqType = "shell" →
      (∃ e ∈ (Client.runRequests codec Client.SessionState.init pre).2,
        e.isSpawn = true) →
      Client.handleRequest codec os
          (Client.runRequests codec Client.SessionState.init pre).1 req
        = ((Client.runRequests codec Client.SessionState.init pre).1,
            Client.Event.log "Duplicate program run: " ::
              (if req.WantReply then [Client.Event.reply false] else [])) := by
  have hcalls := (Client.runRequests_startCalls codec inputs Client.SessionState.init).1
  refine ⟨?_, hcalls, ?_⟩
  · exact le_trans
      (List.countP_mono_left fun e _ he => Client.isStartCall_of_isSpawn e he) hcalls
  · intro pre os req post _ ht hspawn
    obtain ⟨e, hmem, he⟩ := hspawn
    have hpos : 0 < (Client.runRequests codec Client.SessionState.init pre).2.countP
        Client.Event.isStartCall :=
      List.countP_pos_iff.mpr ⟨e, hmem, Client.isStartCall_of_isSpawn e he⟩
    have hst := (Client.runRequests_startCalls codec pre Client.SessionState.init).2 hpos
    rw [Client.handleRequest_shell_started codec os _ req ht hst]
    rfl

/-- Claim C4 at sample inputs: the second of two `shell` requests, both wanting
a reply, changes nothing and gets a failure reply. -/
theorem shell_spawned_at_most_once_witness :
    Client.handleRequest Sample.sessionCodec Sample.shellOK
        (Client.runRequests Sample.sessionCodec Client.SessionState.init
          [(Sample.shellOK, Sample.shellReq)]).1 Sample.shellReq
      = ((Client.runRequests Sample.sessionCodec Client.SessionState.init
          [(Sample.shellOK, Sample.shellReq)]).1,
          [Client.Event.log "Duplicate program run: ", Client.Event.reply false]) :=
  (shell_spawned_at_most_once Sample.sessionCodec
    [(Sample.shellOK, Sample.shellReq), (Sample.shellOK, Sample.shellReq)]).2.2
    [(Sample.shellOK, Sample.shellReq)] Sample.shellOK Sample.shellReq [] rfl rfl
    ⟨Client.Event.start none, List.Mem.head _, rfl⟩

/-- Claim C5 fails when no pty size was negotiated: the first `shell` request
on a fresh session channel wants a reply, the process starts, and no reply
is sent; with a pty size pending the same request is answered with success. -/
theorem shell_without_pty_gets_no_reply :
    Sample.shellReq.WantReply = true ∧
    Client.handleRequest Sample.sessionCodec Sample.shellOK Client.SessionState.init
        Sample.shellReq
      = ({ programStarted := true, ptyFile := none, ptySize := none },
          [Client.Event.start none, Client.Event.goWait]) ∧
    (Client.runRequests Sample.sessionCodec Client.SessionState.init
        [(Sample.shellOK, Sample.ptyReq80x24), (Sample.shellOK, Sample.shellReq)]).2
      = [Client.Event.reply true,
          Client.Event.startWithSize { Rows := 24, Cols := 80, X := 640, Y := 480 }
            (.ok { fd := 7 }),
          Client.Event.goCopyToChannel { fd := 7 }, Client.Event.goCopyToPty { fd := 7 },
          Client.Event.reply true, Client.Event.goWait] :=
  ⟨rfl, rfl, rfl⟩

/-- Claim C6 as stated fails for a `window-change` before the `shell`: the
sequence holds no `pty-req`, and the shell is started on a pseudo-terminal of
the size of the `window-change`. -/
theorem window_change_before_shell_allocates_pty :
    Client.noPtyReqBeforeShell
        [(Sample.shellOK, Sample.windowChange132x43), (Sample.shellOK, Sample.shellReq)]
      = true ∧
    (Client.runRequests Sample.sessionCodec Client.SessionState.init
        [(Sample.shellOK, Sample.windowChange132x43), (Sample.shellOK, Sample.shellReq)]).2
      = [Client.Event.startWithSize { Rows := 43, Cols := 132, X := 0, Y := 0 }
            (.ok { fd := 7 }),
          Client.Event.goCopyToChannel { fd := 7 }, Client.Event.goCopyToPty { fd := 7 },
          Client.Event.reply true, Client.Event.goWait] :=
  ⟨rfl, rfl⟩

/-- Claim C6, amended: over a sequence of sub-requests on a fresh session
channel with neither a `pty-req` nor a `window-change` before its first
`shell` request, no call of `pty.StartWithSize` is ever made, and when the
sequence holds a `shell` request exactly one call of `cmd.Start()` is made,
with the standard streams wired to the channel. -/
theorem shell_without_size_is_direct (codec : Client.SessionCodec)
    (inputs : List (Client.ShellOS × Request))
    (h : Client.noSizeBeforeShell inputs = true) :
    (∀ e ∈ (Client.runRequests codec Client.SessionState.init inputs).2,
      e.isPtyStart = false) ∧
    ((∃ i ∈ inputs, i.2.ReqType = "shell") →
      (Client.runRequests codec Client.SessionState.init inputs).2.countP
        Client.Event.isDirectStart = 1) := by
  have hr := Client.runRequests_direct codec inputs Client.SessionState.init rfl rfl h
  refine ⟨fun e he => ?_, hr.2⟩
  have := List.countP_eq_zero.mp hr.1 e he
  simpa using this

/-- Claim C6, amended, at sample inputs: an `exec` request and then a `shell`
request give one direct start and no pseudo-terminal. -/
theorem shell_without_size_is_direct_witness :
    Client.noSizeBeforeShell
        [(Sample.shellOK, Sample.execReq), (Sample.shellOK, Sample.shellReq)] = true ∧
    (Client.runRequests Sample.sessionCodec Client.SessionState.init
        [(Sample.shellOK, Sample.execReq), (Sample.shellOK, Sample.shellReq)]).2.countP
      Client.Event.isDirectStart = 1 :=
  ⟨rfl, (shell_without_size_is_direct Sample.sessionCodec
    [(Sample.shellOK, Sample.execReq), (Sample.shellOK, Sample.shellReq)] rfl).2
    ⟨(Sample.shellOK, Sample.shellReq), List.Mem.tail _ (List.Mem.head _), rfl⟩⟩

/-- Claim C7 as stated fails for a width of 65536: the `pty-req` is well formed
and asks for 65536 columns and 24 rows, and the shell that follows is started
on a pseudo-terminal of 0 columns. -/
theorem pty_req_width_65536_gives_zero_columns :
    Sample.sessionCodec.unmarshalPtyReq Sample.ptyReqWide.Payload
      = ({ TerminalEnv := "xterm", CharWidth := 65536, CharHeight := 24, PixelWidth := 0,
            PixelHeight := 0, TerminalMode := "" }, none) ∧
    (Client.runRequests Sample.sessionCodec Client.SessionState.init
        [(Sample.shellOK, Sample.ptyReqWide), (Sample.shellOK, Sample.shellReq)]).2
      = [Client.Event.reply true,
          Client.Event.startWithSize { Rows := 24, Cols := 0, X := 0, Y := 0 }
            (.ok { fd := 7 }),
          Client.Event.goCopyToChannel { fd := 7 }, Client.Event.goCopyToPty { fd := 7 },
          Client.Event.reply true, Client.Event.goWait] :=
  ⟨rfl, rfl⟩

/-- Claim C7, amended: a well-formed `pty-req` with char width W, char height
H, pixel width X and pixel height Y, received before any shell was started, is
answered with one success reply when it wants a reply and with nothing
otherwise, and the `shell` request right after it makes exactly one start call,
`pty.StartWithSize` with W mod 65536 columns, H mod 65536 rows and pixel size
X mod 65536 by Y mod 65536, which are W, H, X and Y themselves when each is
below 65536. -/
theorem pty_req_then_shell_size (codec : Client.SessionCodec) (os1 os2 : Client.ShellOS)
    (st : Client.SessionState) (ptyReq shellReq : Request) (env mode : String)
    (W H X Y : Nat) (hs : st.programStarted = false) (ht : ptyReq.ReqType = "pty-req")
    (hsh : shellReq.ReqType = "shell")
    (hp : codec.unmarshalPtyReq ptyReq.Payload
      = ({ TerminalEnv := env, CharWidth := W, CharHeight := H, PixelWidth := X,
            PixelHeight := Y, TerminalMode := mode }, none)) :
    (Client.handleRequest codec os1 st ptyReq).2
      = (if ptyReq.WantReply then [Client.Event.reply true] else []) ∧
    (∃ rest, (Client.handleRequest codec os2 (Client.handleRequest codec os1 st ptyReq).1
        shellReq).2
      = Client.Event.startWithSize
          { Rows := H % 65536, Cols := W % 65536, X := X % 65536, Y := Y % 65536 }
          (os2.startWithSize
            { Rows := H % 65536, Cols := W % 65536, X := X % 65536, Y := Y % 65536 })
        :: rest) ∧
    (Client.handleRequest codec os2 (Client.handleRequest codec os1 st ptyReq).1
        shellReq).2.countP Client.Event.isStartCall = 1 ∧
    (W < 65536 → H < 65536 → X < 65536 → Y < 65536 →
      ({ Rows := H % 65536, Cols := W % 65536, X := X % 65536, Y := Y % 65536 } :
          Client.Winsize)
        = { Rows := H, Cols := W, X := X, Y := Y }) := by
  have hstep : Client.handleRequest codec os1 st ptyReq
      = ({ programStarted := st.programStarted, ptyFile := st.ptyFile,
            ptySize := some
              { Rows := H % 65536, Cols := W % 65536, X := X % 65536, Y := Y % 65536 } },
          Client.replyIfWanted ptyReq true) := by
    simp [Client.handleRequest, ht, hp, uint16]
  refine ⟨?_, ?_, ?_, ?_⟩
  · rw [hstep]; rfl
  · rw [hstep]
    cases hr : os2.startWithSize
        { Rows := H % 65536, Cols := W % 65536, X := X % 65536, Y := Y % 65536 } with
    | error err =>
      exact ⟨_, by simp [Client.handleRequest, hsh, hs, hr]; rfl⟩
    | ok ptyFile =>
      exact ⟨_, by simp [Client.handleRequest, hsh, hs, hr]; rfl⟩
  · exact (Client.handleRequest_shell_fresh codec os2 _ shellReq hsh
      (by rw [hstep]; exact hs)).2
  · intro hW hH hX hY
    rw [Nat.mod_eq_of_lt hW, Nat.mod_eq_of_lt hH, Nat.mod_eq_of_lt hX, Nat.mod_eq_of_lt hY]

/-- Claim C7, amended, at sample inputs: a `pty-req` for 80 by 24 characters
and 640 by 480 pixels gets a success reply, and the shell is started on a
pseudo-terminal of that size. -/
theorem pty_req_then_shell_size_witness :
    (Client.handleRequest Sample.sessionCodec Sample.shellOK Client.SessionState.init
        Sample.ptyReq80x24).2 = [Client.Event.reply true] ∧
    (Client.handleRequest Sample.sessionCodec Sample.shellOK
        (Client.handleRequest Sample.sessionCodec Sample.shellOK Client.SessionState.init
          Sample.ptyReq80x24).1 Sample.shellReq).2.countP Client.Event.isStartCall = 1 :=
  have h := pty_req_then_shell_size Sample.sessionCodec Sample.shellOK Sample.shellOK
    Client.SessionState.init Sample.ptyReq80x24 Sample.shellReq "xterm" "" 80 24 640 480
    rfl rfl rfl rfl
  ⟨h.1, h.2.2.1⟩

/-- Claim C8: when the shell process exits with code N, 0 ≤ N ≤ 255, the
exit-wait task sends exactly one `exit-status` request, with no reply wanted
and code N, and then closes the channel. -/
theorem exit_status_propagated (N : Nat) (hN : N ≤ 255) :
    Client.exitWait (Client.waitResult N)
      = [Client.ChannelAction.sendRequest "exit-status" false N,
          Client.ChannelAction.close] := by
  unfold Client.waitResult
  by_cases h0 : N = 0
  · subst h0
    simp [Client.exitWait]
  · have hcode : uint32 (N : Int) = N := by
      unfold uint32
      omega
    simp [Client.exitWait, h0, hcode]

/-- Claim C8 at sample inputs: exit codes 0 and 3. -/
theorem exit_status_propagated_witness :
    Client.exitWait none
      = [Client.ChannelAction.sendRequest "exit-status" false 0,
          Client.ChannelAction.close] ∧
    Client.exitWait (some (Client.WaitError.exitError 3))
      = [Client.ChannelAction.sendRequest "exit-status" false 3,
          Client.ChannelAction.close] :=
  ⟨exit_status_propagated 0 (by decide), exit_status_propagated 3 (by decide)⟩

/-- Claim C9 fails for an exit error whose exit code is -1 (a process killed by
a signal): the exit-wait task sends an `exit-status` request with code
4294967295 before it closes the channel; for an error that is not an exit
error it sends nothing and closes the channel. -/
theorem exit_code_minus_one_is_sent :
    Client.exitWait (some (Client.WaitError.exitError (-1)))
      = [Client.ChannelAction.sendRequest "exit-status" false 4294967295,
          Client.ChannelAction.close] ∧
    Client.exitWait (some (Client.WaitError.other "wait: no child processes"))
      = [Client.ChannelAction.close] :=
  ⟨by decide, by decide⟩

/-- Claim C10 fails for a channel-open of type `direct-tcpip`: after the
rejection the handler goes on to call `newChannel.Accept()` on the same
channel, and with the nil channel that call returns it reaches the statement
`defer channel.Close()`; a channel-open of type `session` is accepted, not
rejected, and gets its session variables and sub-request loop. -/
theorem non_session_channel_rejected_then_accepted :
    Client.handleNewChannel "direct-tcpip" none
      = [Client.OpenEffect.log "Invalid channel type: direct-tcpip",
          Client.OpenEffect.reject "this server allow only session channel",
          Client.OpenEffect.accept none,
          Client.OpenEffect.log "Failed to accept channel: ",
          Client.OpenEffect.nilDereference] ∧
    Client.handleNewChannel "session" (some { id := 0 })
      = [Client.OpenEffect.accept (some { id := 0 }),
          Client.OpenEffect.deferClose { id := 0 },
          Client.OpenEffect.goRequestLoop { id := 0 } Client.SessionState.init] :=
  ⟨by decide, by decide⟩

/-- Claim C11 fails at payloads that do not parse. On a fresh session channel a
reply-wanting `pty-req` with an empty payload gets two replies, a failure and
then a success, and the pending pty size goes from unset to 0 by 0, on which
the `shell` request that follows starts a pseudo-terminal. While a shell runs
on a pty of 80 by 24, a `window-change` with an empty payload overwrites the
pending size with 0 by 0 and resizes the live pty to it. -/
theorem malformed_size_request_is_applied :
    (Sample.sessionCodec.unmarshalPtyReq Sample.ptyReqEmpty.Payload).2
      = some "ssh: short read" ∧
    Client.handleRequest Sample.sessionCodec Sample.shellOK Client.SessionState.init
        Sample.ptyReqEmpty
      = ({ programStarted := false, ptyFile := none,
            ptySize := some { Rows := 0, Cols := 0, X := 0, Y := 0 } },
          [Client.Event.log "Failed to parse pty-req: ", Client.Event.reply false,
            Client.Event.reply true]) ∧
    (Client.runRequests Sample.sessionCodec Client.SessionState.init
        [(Sample.shellOK, Sample.ptyReqEmpty), (Sample.shellOK, Sample.shellReq)]).2
      = [Client.Event.log "Failed to parse pty-req: ", Client.Event.reply false,
          Client.Event.reply true,
          Client.Event.startWithSize { Rows := 0, Cols := 0, X := 0, Y := 0 }
            (.ok { fd := 7 }),
          Client.Event.goCopyToChannel { fd := 7 }, Client.Event.goCopyToPty { fd := 7 },
          Client.Event.reply true, Client.Event.goWait] ∧
    (Sample.sessionCodec.unmarshalWindowChange Sample.windowChangeEmpty.Payload).2
      = some "ssh: short read" ∧
    Client.handleRequest Sample.sessionCodec Sample.shellOK Sample.liveSession
        Sample.windowChangeEmpty
      = ({ programStarted := true, ptyFile := some { fd := 7 },
            ptySize := some { Rows := 0, Cols := 0, X := 0, Y := 0 } },
          [Client.Event.log "Failed to parse window-change: ",
            Client.Event.setsize { fd := 7 } { Rows := 0, Cols := 0, X := 0, Y := 0 }]) :=
  ⟨rfl, rfl, rfl, rfl, rfl⟩

end SingleRcon
